import Mathlib

/-!
Verification of the vega repository: two GAN training scripts,
src/dcgan/dcgan.py (class DCGAN) and src/cyclegan/cyclegan.py (class CYCLEGAN).
The scripts are thin orchestration over Keras: shapes of tensors flowing through
the layer stacks, the image loading and saving helpers, the training-loop trace
and the trainable-flag handling are embedded here.
-/

namespace Vega

/-! ### Tensor shapes and Keras layer shape semantics -/

/-- A tensor shape: the per-sample dimensions, e.g. height, width, channels. -/
abbrev Shape := List Nat

/-- The Keras layers used by the two scripts.  Convolution layers record the
filter count, the kernel size, the stride, whether padding is same (true) or
valid (false), and the inline activation string (linear when none given). -/
inductive Layer where
  | conv2D (filters k stride : Nat) (same : Bool) (act : String)
  | conv2DTrans (filters k stride : Nat) (same : Bool) (act : String)
  | maxPooling2D (p : Nat)
  | upSampling2D (u : Nat)
  | reshape (s : Shape)
  | flatten
  | activation (name : String)
  | batchNorm
  | leakyReLU
  deriving DecidableEq

/-- Ceiling division, used for the output size of a same-padded strided
convolution. -/
def ceilDiv (a b : Nat) : Nat := (a + b - 1) / b

/-- Product of all the dimensions of a shape. -/
def Shape.numel (s : Shape) : Nat := s.foldl (fun a b => a * b) 1

/-- Output shape of a single Keras layer on a given input shape, none when
Keras would reject the combination (wrong rank, kernel larger than the input,
stride or pool size zero, or an element-count mismatch on reshape). -/
def layerOut : Layer → Shape → Option Shape
  | .conv2D f k s same _, [h, w, _c] =>
      if s = 0 then none
      else if same then some [ceilDiv h s, ceilDiv w s, f]
      else if k ≤ h ∧ k ≤ w then some [(h - k) / s + 1, (w - k) / s + 1, f]
      else none
  | .conv2DTrans f k s same _, [h, w, _c] =>
      if s = 0 then none
      else if same then some [h * s, w * s, f]
      else some [(h - 1) * s + k, (w - 1) * s + k, f]
  | .maxPooling2D p, [h, w, c] =>
      if 1 ≤ p ∧ p ≤ h ∧ p ≤ w then some [(h - p) / p + 1, (w - p) / p + 1, c]
      else none
  | .upSampling2D u, [h, w, c] => some [h * u, w * u, c]
  | .reshape s, l => if Shape.numel l = Shape.numel s then some s else none
  | .flatten, l => some [Shape.numel l]
  | .activation _, l => some l
  | .batchNorm, l => some l
  | .leakyReLU, l => some l
  | _, _ => none

/-- Shape of the output of a sequential model (a list of layers) on an input
of the given shape, none when some layer rejects its input. -/
def runModel (layers : List Layer) (input : Shape) : Option Shape :=
  layers.foldl (fun acc l => acc.bind (layerOut l)) (some input)

/-! ### Configuration constants of the two scripts -/

/-- The CONFIG dictionary of dcgan.py (the numeric hyperparameters; the two
path entries are kept separately as strings). -/
structure DCGANConfig where
  size : Nat
  ngf : Nat
  nz : Nat
  nc : Nat
  ndf : Nat
  deriving DecidableEq

/-- CONFIG of dcgan.py: size 64, ngf 64, nz 200, nc 3, ndf 64. -/
def DCGAN.CONFIG : DCGANConfig := ⟨64, 64, 200, 3, 64⟩

/-- The CONFIG dictionary of cyclegan.py (numeric hyperparameters). -/
structure CYCLEGANConfig where
  size : Nat
  ngf : Nat
  nx : Nat
  ny : Nat
  nc : Nat
  ndf : Nat
  deriving DecidableEq

/-- CONFIG of cyclegan.py: size 32, ngf 16, nx 100, ny 100, nc 3, ndf 64. -/
def CYCLEGAN.CONFIG : CYCLEGANConfig := ⟨32, 16, 100, 100, 3, 64⟩

/-- img_shape of DCGAN.__init__: (size, size, nc). -/
def DCGAN.img_shape (cfg : DCGANConfig) : Shape := [cfg.size, cfg.size, cfg.nc]

/-- img_shape of CYCLEGAN.__init__: (size, size, nc). -/
def CYCLEGAN.img_shape (cfg : CYCLEGANConfig) : Shape := [cfg.size, cfg.size, cfg.nc]

/-! ### The four layer stacks, transcribed from build_generator and
build_discriminator of each script -/

/-- DCGAN.build_generator, dcgan.py lines 110-150.  The model maps a latent
vector of length nz to an image; the first layer reshapes to (1, 1, nz). -/
def DCGAN.genLayers (cfg : DCGANConfig) : List Layer :=
  [ .reshape [1, 1, cfg.nz]
  , .conv2DTrans (cfg.ngf * 8) 4 1 false "linear"
  , .activation "relu"
  , .batchNorm
  , .conv2DTrans (cfg.ngf * 4) 4 2 true "linear"
  , .activation "relu"
  , .batchNorm
  , .batchNorm
  , .conv2DTrans (cfg.ngf * 2) 4 2 true "linear"
  , .activation "relu"
  , .batchNorm
  , .batchNorm
  , .maxPooling2D 4
  , .upSampling2D 4
  , .conv2DTrans cfg.ngf 4 2 true "linear"
  , .activation "relu"
  , .batchNorm
  , .batchNorm
  , .conv2DTrans cfg.nc 4 2 true "tanh" ]

/-- DCGAN.build_discriminator, dcgan.py lines 152-185. -/
def DCGAN.discrLayers (cfg : DCGANConfig) : List Layer :=
  [ .conv2D cfg.ndf 4 2 true "linear"
  , .leakyReLU
  , .batchNorm
  , .conv2D (cfg.ndf * 2) 4 2 true "linear"
  , .leakyReLU
  , .batchNorm
  , .conv2D (cfg.ndf * 4) 4 2 true "linear"
  , .leakyReLU
  , .batchNorm
  , .maxPooling2D 2
  , .upSampling2D 2
  , .conv2D (cfg.ndf * 8) 4 2 true "linear"
  , .leakyReLU
  , .batchNorm
  , .conv2D 1 4 1 false "sigmoid"
  , .flatten ]

/-- CYCLEGAN.build_generator, cyclegan.py lines 129-158.  The model maps an
image of shape img_shape to an image. -/
def CYCLEGAN.genLayers (cfg : CYCLEGANConfig) : List Layer :=
  [ .conv2D cfg.ngf 4 1 false "linear"
  , .activation "relu"
  , .batchNorm
  , .conv2D (cfg.ngf * 4) 4 1 false "linear"
  , .activation "relu"
  , .batchNorm
  , .conv2DTrans cfg.ngf 4 1 false "linear"
  , .activation "relu"
  , .batchNorm
  , .conv2DTrans cfg.ngf 3 1 false "linear"
  , .conv2DTrans cfg.nc 2 1 false "tanh" ]

/-- CYCLEGAN.build_discriminator, cyclegan.py lines 160-190. -/
def CYCLEGAN.discrLayers (cfg : CYCLEGANConfig) : List Layer :=
  [ .conv2D cfg.ndf 4 2 true "linear"
  , .leakyReLU
  , .conv2D cfg.ndf 4 2 true "linear"
  , .leakyReLU
  , .batchNorm
  , .conv2D (cfg.ndf * 8) 4 2 true "linear"
  , .leakyReLU
  , .batchNorm
  , .conv2D 1 4 1 false "sigmoid"
  , .flatten ]

/-! ### Image loading (DCGAN.load_images and CYCLEGAN.load_images) -/

/-- An image file as PIL and numpy deliver it to load_images: its array shape
and its raw 8-bit pixel values flattened into a list. -/
structure RawImage where
  shape : Shape
  pixels : List Nat
  deriving DecidableEq

/-- The identity embedding of a raw 8-bit pixel value into the float tensor
(the conversion numpy and Keras perform on a uint8 array left unnormalized). -/
def rawPix (p : Nat) : ℚ := p

/-- Pixel normalization of dcgan.py line 87: (p - 127.5) / 127.5. -/
def normalizePix (p : Nat) : ℚ := ((p : ℚ) - 127.5) / 127.5

/-- The message printed for an image of the wrong shape
(dcgan.py line 89, cyclegan.py line 109). -/
def badShapeMsg (f : String) (s : Shape) : String :=
  "bad shape for " ++ f ++ ": " ++ toString s

/-- DCGAN.load_images, dcgan.py lines 81-91: iterate over the globbed files
(given here as name-image pairs in glob order), keep the images whose shape
equals img_shape, normalized to floats, and print a message for each other
image.  Returns the training list together with the printed messages. -/
def DCGAN.load_images (shape : Shape) (files : List (String × RawImage)) :
    List (List ℚ) × List String :=
  match files with
  | [] => ([], [])
  | (f, img) :: rest =>
      let r := DCGAN.load_images shape rest
      if img.shape = shape then ((img.pixels.map normalizePix) :: r.1, r.2)
      else (r.1, badShapeMsg f img.shape :: r.2)

/-- CYCLEGAN.load_images, cyclegan.py lines 101-111: same filtering, but the
matching images are appended raw, with no normalization (line 107 appends img
itself); the raw 8-bit values are embedded into the float array unchanged. -/
def CYCLEGAN.load_images (shape : Shape) (files : List (String × RawImage)) :
    List (List ℚ) × List String :=
  match files with
  | [] => ([], [])
  | (f, img) :: rest =>
      let r := CYCLEGAN.load_images shape rest
      if img.shape = shape then ((img.pixels.map rawPix) :: r.1, r.2)
      else (r.1, badShapeMsg f img.shape :: r.2)

/-! ### Pixel denormalization when saving (DCGAN.save_images line 95) -/

/-- Truncation toward zero, the rounding a numpy astype cast performs on a
float. -/
def truncToZero (q : ℚ) : ℤ := if 0 ≤ q then ⌊q⌋ else ⌈q⌉

/-- A numpy astype-uint8 cast of a float value: truncate toward zero, then
wrap modulo 256. -/
def uint8Cast (q : ℚ) : ℤ := (truncToZero q) % 256

/-- The per-pixel denormalization of dcgan.py line 95:
(127.5 * x + 127.5).astype(uint8). -/
def DCGAN.denormPixel (x : ℚ) : ℤ := uint8Cast (127.5 * x + 127.5)

/-! ### The functional-API composite graphs built in the two constructors -/

/-- The networks the two scripts refer to by attribute. -/
inductive NetRef where
  | gen | discr | gen1 | gen2 | discr1 | discr2
  deriving DecidableEq

/-- A Keras functional-API tensor expression: an Input placeholder or a model
applied to a tensor. -/
inductive GraphExpr where
  | input (id : Nat)
  | call (n : NetRef) (t : GraphExpr)
  deriving DecidableEq

/-- Evaluate a graph expression, given an interpretation of each network as a
function and values for the input placeholders. -/
def evalGraph {α : Type} (I : NetRef → α → α) (env : Nat → α) : GraphExpr → α
  | .input i => env i
  | .call n t => I n (evalGraph I env t)

/-- The output tensor of the DCGAN composite model, dcgan.py lines 52-53:
comb = Model(z, discr(gen(z))) with z = Input 0. -/
def DCGAN.combGraph : GraphExpr := .call .discr (.call .gen (.input 0))

/-- The output tensor first_gen = discr1(gen1(x)) of cyclegan.py line 59,
wrapped as comb1 = Model(x, first_gen) on line 65; comb1 is never compiled
and never trained. -/
def CYCLEGAN.comb1Graph : GraphExpr := .call .discr1 (.call .gen1 (.input 0))

/-- The output tensor second_gen = discr2(gen2(y)) of cyclegan.py line 60,
wrapped as comb2 = Model(y, second_gen) on line 67; comb2 is never compiled
and never trained. -/
def CYCLEGAN.comb2Graph : GraphExpr := .call .discr2 (.call .gen2 (.input 1))

/-- The output tensor of the composite that cyclegan.py actually compiles
(line 72) and trains (line 93): comb = Model(x, gen2(gen1(x))), line 69.
No discriminator appears in it. -/
def CYCLEGAN.combGraph : GraphExpr := .call .gen2 (.call .gen1 (.input 0))

/-- Shape semantics of the CYCLEGAN networks: each network maps an input
shape to the output shape of its layer stack under the script's CONFIG
(gen1 and gen2 share build_generator, discr1 and discr2 share
build_discriminator; gen and discr do not exist in cyclegan.py). -/
def CYCLEGAN.shapeSem : NetRef → Option Shape → Option Shape
  | .gen1, s => s.bind (runModel (CYCLEGAN.genLayers CYCLEGAN.CONFIG))
  | .gen2, s => s.bind (runModel (CYCLEGAN.genLayers CYCLEGAN.CONFIG))
  | .discr1, s => s.bind (runModel (CYCLEGAN.discrLayers CYCLEGAN.CONFIG))
  | .discr2, s => s.bind (runModel (CYCLEGAN.discrLayers CYCLEGAN.CONFIG))
  | _, _ => none

/-! ### The sigmoid activation ending both discriminators -/

/-- The sigmoid activation of the final discriminator layer, over the reals. -/
noncomputable def sigmoid (x : ℝ) : ℝ := 1 / (1 + Real.exp (-x))

/-! ### Trainable flags captured at compile time (DCGAN.__init__) -/

/-- A compiled Keras model, reduced to which of the two weight groups (the
generator's and the discriminator's) an optimizer step on it updates; the
flags are captured from the trainable attributes at the moment compile is
called. -/
structure Compiled where
  updGen : Bool
  updDiscr : Bool
  deriving DecidableEq

/-- The two compiled models DCGAN.__init__ produces. -/
structure DCGANModels where
  discrCompiled : Compiled
  combCompiled : Compiled
  deriving DecidableEq

/-- DCGAN.__init__, dcgan.py lines 42-54, replayed in statement order: the
discriminator is built (trainable defaults to true) and compiled alone (line
43), then discr.trainable is set to false (line 45), then the generator is
built (line 47) and comb = Model(z, discr(gen(z))) is compiled (line 54),
capturing the flags current at that point. -/
def DCGAN.initModels : DCGANModels :=
  let discrTrainable := true
  let discrCompiled : Compiled := ⟨false, discrTrainable⟩
  let discrTrainable := false
  let genTrainable := true
  let combCompiled : Compiled := ⟨genTrainable, discrTrainable⟩
  ⟨discrCompiled, combCompiled⟩

/-- The weight state: the generator's and the discriminator's weight tensors,
abstracted as integer lists. -/
structure Weights where
  gw : List ℤ
  dw : List ℤ
  deriving DecidableEq

/-- train_on_batch on a compiled model: the optimizer applies an update to
exactly the weight groups whose captured trainable flag is true. -/
def trainOnBatch (m : Compiled) (upd : List ℤ → List ℤ) (w : Weights) : Weights :=
  ⟨if m.updGen then upd w.gw else w.gw, if m.updDiscr then upd w.dw else w.dw⟩

/-! ### Output file names of save_images -/

/-- The character of a decimal digit. -/
def digitChar (d : Nat) : Char := Char.ofNat (48 + d)

/-- Zero-pad a little-endian digit list to at least four digits (the high
digits of a little-endian number are at the end of the list). -/
def pad4 (l : List Nat) : List Nat := l ++ List.replicate (4 - l.length) 0

/-- The rendering of the Python format %04i on a natural number: its decimal
digits, zero-padded on the left to width four. -/
def format04 (n : Nat) : String :=
  String.mk (((pad4 (Nat.digits 10 n)).reverse).map digitChar)

/-- The file name dcgan.py line 108 saves to: dcgan_%04i.png formatted with
the epoch number. -/
def DCGAN.saveName (epoch : Nat) : String := "dcgan_" ++ format04 epoch ++ ".png"

/-- The file name cyclegan.py line 127 saves to.  The source string
contains no percent-formatting application (out.save receives the literal
format string), so the name is the same for every epoch. -/
def CYCLEGAN.saveName (_epoch : Nat) : String := "output/dcgan_%04i.png"

/-! ### The training loops as event traces -/

/-- Where a training batch comes from. -/
inductive BatchSrc where
  | realImgs | genImgs
  deriving DecidableEq

/-- The observable framework calls a training loop makes, in order: a
discriminator train_on_batch with its label column, the composite
train_on_batch with its label column, the loss print, and a save_images
call. -/
inductive Event where
  | discrTrain (d : NetRef) (src : BatchSrc) (labels : List ℚ)
  | combTrain (labels : List ℚ)
  | printLoss (epoch : Nat)
  | saveImages (epoch : Nat)
  deriving DecidableEq

/-- The Python exceptions the training loops can raise in this model. -/
inductive PyError where
  | attributeError (name : String)
  | valueError (msg : String)
  | zeroDivisionError
  deriving DecidableEq

/-- Run a loop body over the epoch indices, accumulating the event trace and
stopping at the first raised exception. -/
def runLoop (body : Nat → List Event × Option PyError) :
    List Nat → List Event × Option PyError
  | [] => ([], none)
  | e :: es =>
      let r := body e
      match r.2 with
      | some err => (r.1, some err)
      | none =>
          let rest := runLoop body es
          (r.1 ++ rest.1, rest.2)

/-- One iteration of DCGAN.train, dcgan.py lines 59-79, over a training set
of nImgs images: sample a real half-batch (numpy randint raises ValueError
when the set is empty), train the discriminator on it with labels all 1, then
on a generated half-batch with labels all 0, then train the composite on a
latent batch of size 2 * half_batch with labels all 1, print, and save when
epoch is a multiple of save_interval (a zero save_interval makes the Python
modulo raise). -/
def DCGAN.epochBody (nImgs half_batch save_interval : Nat) (epoch : Nat) :
    List Event × Option PyError :=
  if nImgs = 0 then ([], some (.valueError "low is greater than or equal to high"))
  else
    let steps : List Event :=
      [ .discrTrain .discr .realImgs (List.replicate half_batch 1)
      , .discrTrain .discr .genImgs (List.replicate half_batch 0)
      , .combTrain (List.replicate (2 * half_batch) 1)
      , .printLoss epoch ]
    if save_interval = 0 then (steps, some .zeroDivisionError)
    else if epoch % save_interval = 0 then (steps ++ [.saveImages epoch], none)
    else (steps, none)

/-- DCGAN.train, dcgan.py lines 56-79: run the epoch body for epochs
iterations. -/
def DCGAN.train (nImgs epochs half_batch save_interval : Nat) :
    List Event × Option PyError :=
  runLoop (DCGAN.epochBody nImgs half_batch save_interval) (List.range epochs)

/-- The attribute names CYCLEGAN.__init__ (cyclegan.py lines 32-74) assigns
on self, in order.  nx and ny are assigned (lines 34-35) but nz and gen never
are. -/
def CYCLEGAN.initAttrs : List String :=
  ["img_shape", "nx", "ny", "ngf", "ndf", "alpha", "nc",
   "discr1", "discr2", "gen1", "gen2", "first_gen", "second_gen",
   "comb1", "comb2", "comb"]

/-- One iteration of CYCLEGAN.train, cyclegan.py lines 80-99, with every
attribute read on self checked against the attribute list: line 83 reads
discr1, line 85 reads nz (building the latent batch), line 86 reads gen1,
line 93 reads comb, and save_images line 114 reads gen; a missing attribute
raises AttributeError at that point, keeping the trace made so far. -/
def CYCLEGAN.epochBody (attrs : List String) (nImgs half_batch save_interval : Nat)
    (epoch : Nat) : List Event × Option PyError :=
  if nImgs = 0 then ([], some (.valueError "low is greater than or equal to high"))
  else if ¬ attrs.contains "discr1" then ([], some (.attributeError "discr1"))
  else
    let tr1 : List Event := [.discrTrain .discr1 .realImgs (List.replicate half_batch 1)]
    if ¬ attrs.contains "nz" then (tr1, some (.attributeError "nz"))
    else if ¬ attrs.contains "gen1" then (tr1, some (.attributeError "gen1"))
    else
      let tr2 := tr1 ++ [.discrTrain .discr1 .genImgs (List.replicate half_batch 0)]
      if ¬ attrs.contains "comb" then (tr2, some (.attributeError "comb"))
      else
        let tr3 := tr2 ++ [.combTrain (List.replicate (2 * half_batch) 1), .printLoss epoch]
        if save_interval = 0 then (tr3, some .zeroDivisionError)
        else if epoch % save_interval = 0 then
          if ¬ attrs.contains "gen" then (tr3, some (.attributeError "gen"))
          else (tr3 ++ [.saveImages epoch], none)
        else (tr3, none)

/-- CYCLEGAN.train, cyclegan.py lines 76-99: run the epoch body for epochs
iterations over the attributes the constructor installed. -/
def CYCLEGAN.train (attrs : List String) (nImgs epochs half_batch save_interval : Nat) :
    List Event × Option PyError :=
  runLoop (CYCLEGAN.epochBody attrs nImgs half_batch save_interval) (List.range epochs)

/-- The decimal digit a character denotes. -/
def charToDigit (c : Char) : Nat := c.toNat - 48

/-- Decode the decimal number a character list denotes (the left inverse of
format04, used to state that a file name contains the epoch index). -/
def unformat (l : List Char) : Nat := Nat.ofDigits 10 ((l.reverse).map charToDigit)

/-! ### Theorems -/

/-! #### Helper lemmas -/

theorem runLoop_ok (body : Nat → List Event × Option PyError) (es : List Nat)
    (h : ∀ e ∈ es, (body e).2 = none) :
    runLoop body es = ((es.flatMap fun e => (body e).1), none) := by
  induction es with
  | nil => rfl
  | cons e es ih =>
      have he := h e (List.mem_cons_self e es)
      have ht : ∀ x ∈ es, (body x).2 = none := fun x hx => h x (List.mem_cons_of_mem e hx)
      simp [runLoop, he, ih ht]

theorem dcgan_load_images_eq (shape : Shape) (files : List (String × RawImage)) :
    DCGAN.load_images shape files
      = ((files.filter (fun fi => fi.2.shape == shape)).map
            (fun fi => fi.2.pixels.map normalizePix),
         (files.filter (fun fi => fi.2.shape != shape)).map
            (fun fi => badShapeMsg fi.1 fi.2.shape)) := by
  induction files with
  | nil => rfl
  | cons fi rest ih =>
      obtain ⟨f, img⟩ := fi
      by_cases h : img.shape = shape <;>
        simp [DCGAN.load_images, h, ih, List.filter_cons, bne]

theorem cyclegan_load_images_eq (shape : Shape) (files : List (String × RawImage)) :
    CYCLEGAN.load_images shape files
      = ((files.filter (fun fi => fi.2.shape == shape)).map
            (fun fi => fi.2.pixels.map rawPix),
         (files.filter (fun fi => fi.2.shape != shape)).map
            (fun fi => badShapeMsg fi.1 fi.2.shape)) := by
  induction files with
  | nil => rfl
  | cons fi rest ih =>
      obtain ⟨f, img⟩ := fi
      by_cases h : img.shape = shape <;>
        simp [CYCLEGAN.load_images, h, ih, List.filter_cons, bne]

theorem DCGAN.epochBody_ok (nImgs half_batch save_interval e : Nat)
    (h1 : nImgs ≠ 0) (h2 : save_interval ≠ 0) :
    (DCGAN.epochBody nImgs half_batch save_interval e).2 = none := by
  rw [DCGAN.epochBody, if_neg h1]
  by_cases h3 : e % save_interval = 0 <;> simp [h2, h3]

theorem DCGAN.epochBody_take3 (nImgs half_batch save_interval e : Nat)
    (h1 : nImgs ≠ 0) :
    ((DCGAN.epochBody nImgs half_batch save_interval e).1).take 3
      = [ .discrTrain .discr .realImgs (List.replicate half_batch 1)
        , .discrTrain .discr .genImgs (List.replicate half_batch 0)
        , .combTrain (List.replicate (2 * half_batch) 1) ] := by
  rw [DCGAN.epochBody, if_neg h1]
  by_cases h2 : save_interval = 0 <;> by_cases h3 : e % save_interval = 0 <;>
    simp [h2, h3]

theorem DCGAN.saveImages_mem_epochBody (nImgs half_batch save_interval e x : Nat)
    (h1 : nImgs ≠ 0) (h2 : save_interval ≠ 0) :
    Event.saveImages x ∈ (DCGAN.epochBody nImgs half_batch save_interval e).1
      ↔ x = e ∧ e % save_interval = 0 := by
  rw [DCGAN.epochBody, if_neg h1]
  by_cases h3 : e % save_interval = 0 <;> simp [h2, h3]

theorem CYCLEGAN.epochBody_nz_error (nImgs half_batch save_interval epoch : Nat)
    (h : nImgs ≠ 0) :
    CYCLEGAN.epochBody CYCLEGAN.initAttrs nImgs half_batch save_interval epoch
      = ([.discrTrain .discr1 .realImgs (List.replicate half_batch 1)],
         some (.attributeError "nz")) := by
  rw [CYCLEGAN.epochBody, if_neg h]
  rfl

theorem ofDigits_replicate_zero (k : Nat) :
    Nat.ofDigits 10 (List.replicate k 0) = 0 := by
  induction k with
  | zero => rfl
  | succ n ih => simp [List.replicate_succ, Nat.ofDigits_cons, ih]

theorem charToDigit_digitChar : ∀ d < 10, charToDigit (digitChar d) = d := by
  decide

theorem unformat_format04 (n : Nat) : unformat (format04 n).data = n := by
  have hdig : ∀ x ∈ pad4 (Nat.digits 10 n),
      (charToDigit ∘ digitChar) x = id x := by
    intro x hx
    rcases List.mem_append.mp hx with h | h
    · exact charToDigit_digitChar x (Nat.digits_lt_base (by norm_num) h)
    · rw [List.eq_of_mem_replicate h]
      exact charToDigit_digitChar 0 (by norm_num)
  show Nat.ofDigits 10
      (((((pad4 (Nat.digits 10 n)).reverse).map digitChar).reverse).map charToDigit) = n
  rw [List.map_reverse, List.map_reverse, List.map_reverse,
    List.reverse_reverse, List.map_map]
  rw [List.map_congr_left hdig, List.map_id]
  unfold pad4
  rw [Nat.ofDigits_append, Nat.ofDigits_digits, ofDigits_replicate_zero]
  ring

theorem format04_inj (m n : Nat) (h : (format04 m).data = (format04 n).data) :
    m = n := by
  have h2 := congrArg unformat h
  rwa [unformat_format04, unformat_format04] at h2

theorem DCGAN.saveName_inj (m n : Nat)
    (h : DCGAN.saveName m = DCGAN.saveName n) : m = n := by
  have hd := congrArg String.data h
  simp only [DCGAN.saveName, String.data_append] at hd
  exact format04_inj m n (List.append_cancel_left (List.append_cancel_right hd))

/-! #### Claim theorems -/

/-- C1: for every input directory (modelled as the globbed list of files in
glob order), load_images of each script returns exactly the images whose
array shape equals the configured image shape, in order (normalized for
dcgan.py, raw for cyclegan.py), and produces one bad-shape message per
excluded image; both functions are total, so no exception is raised and
training is not halted. -/
theorem C1_load_images_filters_by_shape :
    ∀ (shape : Shape) (files : List (String × RawImage)),
      (DCGAN.load_images shape files).1
          = (files.filter (fun fi => fi.2.shape == shape)).map
              (fun fi => fi.2.pixels.map normalizePix) ∧
      (DCGAN.load_images shape files).2
          = (files.filter (fun fi => fi.2.shape != shape)).map
              (fun fi => badShapeMsg fi.1 fi.2.shape) ∧
      (CYCLEGAN.load_images shape files).1
          = (files.filter (fun fi => fi.2.shape == shape)).map
              (fun fi => fi.2.pixels.map rawPix) ∧
      (CYCLEGAN.load_images shape files).2
          = (files.filter (fun fi => fi.2.shape != shape)).map
              (fun fi => badShapeMsg fi.1 fi.2.shape) := by
  intro shape files
  simp [dcgan_load_images_eq, cyclegan_load_images_eq]

/-- C3 counterexample: CYCLEGAN.load_images (cyclegan.py line 107) appends a
matching image raw, without normalization: on an image of the configured
shape whose pixels are all 255, the stored row is all 255, a value outside
the interval from -1 to 1 and different from the normalized value. -/
theorem C3_counterexample_cyclegan_raw_pixels :
    (CYCLEGAN.load_images (CYCLEGAN.img_shape CYCLEGAN.CONFIG)
        [("input/a.png",
          RawImage.mk (CYCLEGAN.img_shape CYCLEGAN.CONFIG) (List.replicate 3072 255))]).1
      = [List.replicate 3072 (255 : ℚ)] ∧
    (255 : ℚ) ∈ List.replicate 3072 (255 : ℚ) ∧
    ¬ ((255 : ℚ) ≤ 1) ∧ normalizePix 255 ≠ (255 : ℚ) := by
  refine ⟨?_, List.mem_replicate.mpr ⟨by norm_num, rfl⟩, by norm_num, ?_⟩
  · rw [cyclegan_load_images_eq]
    simp only [List.filter_cons, List.filter_nil, beq_self_eq_true, if_true, List.map_cons,
      List.map_nil, List.map_replicate]
    norm_num [rawPix]
  · norm_num [normalizePix]

/-- C3 amended: every pixel value DCGAN.load_images stores is the raw 8-bit
value normalized to the interval from -1 to 1 (the normalized-storage part of
the original claim holds for dcgan.py only); CYCLEGAN.load_images stores the
raw 8-bit values unchanged, so its values lie in the interval from 0 to 255
instead. -/
theorem C3_amended_normalization :
    ∀ (shape : Shape) (files : List (String × RawImage)),
      (∀ fi ∈ files, ∀ p ∈ fi.2.pixels, p ≤ 255) →
      (∀ xs ∈ (DCGAN.load_images shape files).1, ∀ v ∈ xs, -1 ≤ v ∧ v ≤ 1) ∧
      (∀ xs ∈ (CYCLEGAN.load_images shape files).1, ∀ v ∈ xs, 0 ≤ v ∧ v ≤ 255) := by
  intro shape files hb
  constructor
  · intro xs hxs v hv
    rw [dcgan_load_images_eq] at hxs
    simp only [List.mem_map, List.mem_filter] at hxs
    obtain ⟨fi, ⟨hfi, hsh⟩, rfl⟩ := hxs
    simp only [List.mem_map] at hv
    obtain ⟨p, hp, rfl⟩ := hv
    have h255 : (p : ℚ) ≤ 255 := by exact_mod_cast hb fi hfi p hp
    have h0 : (0 : ℚ) ≤ (p : ℚ) := Nat.cast_nonneg p
    unfold normalizePix
    constructor
    · rw [le_div_iff₀ (by norm_num)]
      linarith
    · rw [div_le_one (by norm_num)]
      linarith
  · intro xs hxs v hv
    rw [cyclegan_load_images_eq] at hxs
    simp only [List.mem_map, List.mem_filter] at hxs
    obtain ⟨fi, ⟨hfi, hsh⟩, rfl⟩ := hxs
    rw [List.mem_map] at hv
    obtain ⟨p, hp, hpv⟩ := hv
    subst hpv
    simp only [rawPix]
    exact ⟨Nat.cast_nonneg p, by exact_mod_cast hb fi hfi p hp⟩

/-- C3 amended, witnessed at a concrete file list containing one image of a
matching shape with the extreme raw pixel values 0 and 255. -/
theorem C3_amended_normalization_witness :
    (∀ fi ∈ [("a.jpg", RawImage.mk [1, 1, 3] [0, 255])],
        ∀ p ∈ (Prod.snd fi).pixels, p ≤ 255) ∧
    ((∀ xs ∈ (DCGAN.load_images [1, 1, 3] [("a.jpg", RawImage.mk [1, 1, 3] [0, 255])]).1,
        ∀ v ∈ xs, -1 ≤ v ∧ v ≤ 1) ∧
     (∀ xs ∈ (CYCLEGAN.load_images [1, 1, 3] [("a.jpg", RawImage.mk [1, 1, 3] [0, 255])]).1,
        ∀ v ∈ xs, 0 ≤ v ∧ v ≤ 255)) :=
  ⟨by decide,
   C3_amended_normalization [1, 1, 3] [("a.jpg", RawImage.mk [1, 1, 3] [0, 255])] (by decide)⟩

/-- C4: the pixel denormalization of DCGAN.save_images (x maps to
127.5 * x + 127.5, cast to an unsigned 8-bit integer) sends the normalization
boundary -1 to 0 and the boundary 1 to 255, round-tripping the normalization
of raw pixels 0 and 255 exactly. -/
theorem C4_denorm_boundaries :
    DCGAN.denormPixel (-1) = 0 ∧ DCGAN.denormPixel 1 = 255 ∧
    DCGAN.denormPixel (normalizePix 0) = 0 ∧
    DCGAN.denormPixel (normalizePix 255) = 255 := by
  norm_num [DCGAN.denormPixel, uint8Cast, truncToZero, normalizePix]

/-- C5: under each script's CONFIG, the generator layer stack maps its input
shape (the latent dimension nz for dcgan.py, the image shape for cyclegan.py)
to exactly the configured image shape (size, size, nc), so every generator
output tensor has the configured image shape. -/
theorem C5_generator_output_shape :
    runModel (DCGAN.genLayers DCGAN.CONFIG) [DCGAN.CONFIG.nz]
        = some (DCGAN.img_shape DCGAN.CONFIG) ∧
    runModel (CYCLEGAN.genLayers CYCLEGAN.CONFIG) (CYCLEGAN.img_shape CYCLEGAN.CONFIG)
        = some (CYCLEGAN.img_shape CYCLEGAN.CONFIG) := by
  decide

/-- C6: under each script's CONFIG, the discriminator layer stack collapses a
configured-shape image to spatial shape 1 x 1 x 1 before the final Flatten,
hence to a single scalar after it, the layer producing that scalar is a
sigmoid-activated convolution, and the sigmoid always lies in the closed
interval from 0 to 1. -/
theorem C6_discriminator_scalar_output :
    (runModel ((DCGAN.discrLayers DCGAN.CONFIG).dropLast) (DCGAN.img_shape DCGAN.CONFIG)
        = some [1, 1, 1] ∧
     runModel (DCGAN.discrLayers DCGAN.CONFIG) (DCGAN.img_shape DCGAN.CONFIG)
        = some [1] ∧
     ((DCGAN.discrLayers DCGAN.CONFIG).dropLast).getLast?
        = some (.conv2D 1 4 1 false "sigmoid") ∧
     runModel ((CYCLEGAN.discrLayers CYCLEGAN.CONFIG).dropLast)
         (CYCLEGAN.img_shape CYCLEGAN.CONFIG) = some [1, 1, 1] ∧
     runModel (CYCLEGAN.discrLayers CYCLEGAN.CONFIG) (CYCLEGAN.img_shape CYCLEGAN.CONFIG)
        = some [1] ∧
     ((CYCLEGAN.discrLayers CYCLEGAN.CONFIG).dropLast).getLast?
        = some (.conv2D 1 4 1 false "sigmoid")) ∧
    ∀ x : ℝ, 0 ≤ sigmoid x ∧ sigmoid x ≤ 1 := by
  refine ⟨by decide, fun x => ?_⟩
  have hpos : (0:ℝ) < 1 + Real.exp (-x) := by positivity
  constructor
  · exact div_nonneg zero_le_one (le_of_lt hpos)
  · rw [sigmoid, div_le_one hpos]
    linarith [Real.exp_pos (-x)]

/-- C2 counterexample: in cyclegan.py, the composite model that is compiled
and used as the generator training objective is comb = Model(x, gen2(gen1(x)))
(lines 69, 72, 93); evaluating its graph under the shape semantics of the
script's own networks at the configured input shape gives the image shape
[32, 32, 3], not the discriminator-after-generator value [1], so comb(input)
is not discriminator(generator(input)). -/
theorem C2_counterexample_cyclegan_comb :
    evalGraph CYCLEGAN.shapeSem (fun _ => some (CYCLEGAN.img_shape CYCLEGAN.CONFIG))
        CYCLEGAN.combGraph
      ≠ CYCLEGAN.shapeSem .discr1
          (CYCLEGAN.shapeSem .gen1 (some (CYCLEGAN.img_shape CYCLEGAN.CONFIG))) := by
  decide

/-- C2 amended: in dcgan.py the trained composite computes the discriminator
applied to the generator output, with the discriminator weights frozen in the
composite at compile time; in cyclegan.py the compiled and trained composite
computes gen2 applied to gen1, containing no discriminator (the
discriminator-chained graphs comb1 and comb2 are built but never compiled or
trained). -/
theorem C2_amended_composite_graphs :
    (∀ (α : Type) (I : NetRef → α → α) (env : Nat → α),
        evalGraph I env DCGAN.combGraph = I .discr (I .gen (env 0))) ∧
    DCGAN.initModels.combCompiled.updDiscr = false ∧
    (∀ (α : Type) (I : NetRef → α → α) (env : Nat → α),
        evalGraph I env CYCLEGAN.combGraph = I .gen2 (I .gen1 (env 0))) := by
  exact ⟨fun _ _ _ => rfl, rfl, fun _ _ _ => rfl⟩

/-- C9: a train_on_batch step on the DCGAN composite model updates only the
generator weight group: because discr.trainable was set to false before comb
was compiled, the compiled composite's captured flags update the generator and
leave every discriminator weight tensor unchanged, for every optimizer update
function and every weight state. -/
theorem C9_comb_step_preserves_discr_weights :
    ∀ (upd : List ℤ → List ℤ) (w : Weights),
      (trainOnBatch DCGAN.initModels.combCompiled upd w).dw = w.dw ∧
      (trainOnBatch DCGAN.initModels.combCompiled upd w).gw = upd w.gw ∧
      (trainOnBatch DCGAN.initModels.discrCompiled upd w).dw = upd w.dw := by
  intro upd w
  exact ⟨rfl, rfl, rfl⟩

/-- C7 counterexample: cyclegan.py never performs the claimed three-step
iteration: with a nonempty training set, one epoch, and half batch 1, the
training loop performs the real-batch discriminator step and then raises
AttributeError on the undefined attribute nz, so no iteration reaches the
generated-batch or generator steps. -/
theorem C7_counterexample_cyclegan_iteration :
    CYCLEGAN.train CYCLEGAN.initAttrs 1 1 1 1
      = ([.discrTrain .discr1 .realImgs [1]], some (.attributeError "nz")) := by
  have h := CYCLEGAN.epochBody_nz_error 1 1 1 0 (by decide)
  have hr : List.range 1 = [0] := rfl
  rw [CYCLEGAN.train, hr]
  simp [runLoop, h]

/-- C7 amended: in dcgan.py every iteration of the training loop, in order,
optimizes the discriminator on a real batch with every label 1, then on a
generator-produced batch with every label 0, then the generator through the
frozen-discriminator composite on a batch of twice the half-batch size with
every label 1; in cyclegan.py the loop instead raises an attribute error
before completing any iteration (see the counterexample). -/
theorem C7_amended_training_order :
    ∀ (nImgs epochs half_batch save_interval : Nat),
      nImgs ≠ 0 → save_interval ≠ 0 →
      (DCGAN.train nImgs epochs half_batch save_interval).2 = none ∧
      (DCGAN.train nImgs epochs half_batch save_interval).1
        = (List.range epochs).flatMap
            (fun e => (DCGAN.epochBody nImgs half_batch save_interval e).1) ∧
      (∀ e, ∃ lr lf lg,
        ((DCGAN.epochBody nImgs half_batch save_interval e).1).take 3
          = [ .discrTrain .discr .realImgs lr
            , .discrTrain .discr .genImgs lf
            , .combTrain lg ]
        ∧ lr.length = half_batch ∧ (∀ q ∈ lr, q = 1)
        ∧ lf.length = half_batch ∧ (∀ q ∈ lf, q = 0)
        ∧ lg.length = 2 * half_batch ∧ (∀ q ∈ lg, q = 1)) ∧
      DCGAN.initModels.combCompiled.updDiscr = false := by
  intro nImgs epochs half_batch save_interval h1 h2
  have hok : ∀ e ∈ List.range epochs,
      ((DCGAN.epochBody nImgs half_batch save_interval) e).2 = none :=
    fun e _ => DCGAN.epochBody_ok nImgs half_batch save_interval e h1 h2
  have htr := runLoop_ok (DCGAN.epochBody nImgs half_batch save_interval)
    (List.range epochs) hok
  refine ⟨by rw [DCGAN.train, htr], by rw [DCGAN.train, htr], fun e => ?_, rfl⟩
  exact ⟨List.replicate half_batch 1, List.replicate half_batch 0,
    List.replicate (2 * half_batch) 1,
    DCGAN.epochBody_take3 nImgs half_batch save_interval e h1,
    List.length_replicate half_batch 1, fun q hq => List.eq_of_mem_replicate hq,
    List.length_replicate half_batch 0, fun q hq => List.eq_of_mem_replicate hq,
    List.length_replicate (2 * half_batch) 1, fun q hq => List.eq_of_mem_replicate hq⟩

/-- C7 amended, witnessed with three training images, two epochs, half batch
two and save interval one. -/
theorem C7_amended_training_order_witness :
    (DCGAN.train 3 2 2 1).2 = none ∧
    (DCGAN.train 3 2 2 1).1
      = (List.range 2).flatMap (fun e => (DCGAN.epochBody 3 2 1 e).1) ∧
    (∀ e, ∃ lr lf lg,
      ((DCGAN.epochBody 3 2 1 e).1).take 3
        = [ .discrTrain .discr .realImgs lr
          , .discrTrain .discr .genImgs lf
          , .combTrain lg ]
      ∧ lr.length = 2 ∧ (∀ q ∈ lr, q = 1)
      ∧ lf.length = 2 ∧ (∀ q ∈ lf, q = 0)
      ∧ lg.length = 2 * 2 ∧ (∀ q ∈ lg, q = 1)) ∧
    DCGAN.initModels.combCompiled.updDiscr = false :=
  C7_amended_training_order 3 2 2 1 (by decide) (by decide)

/-- C8 counterexample: cyclegan.py line 127 saves every grid to the literal
path output/dcgan_%04i.png (the format string is never applied to the epoch),
so two distinct save epochs produce the same file name. -/
theorem C8_counterexample_cyclegan_constant_name :
    CYCLEGAN.saveName 0 = CYCLEGAN.saveName 3 ∧ (0 : Nat) ≠ 3 :=
  ⟨rfl, by decide⟩

/-- C8 amended: in dcgan.py, the training loop emits a save_images call
exactly at the epochs below the epoch count that are multiples of
save_interval (epoch 0 included), the saved file name dcgan_%04i.png is
injective in the epoch and its digit block decodes back to the epoch index;
in cyclegan.py the save path is the same constant string for every epoch. -/
theorem C8_amended_save_names :
    ∀ (nImgs epochs half_batch save_interval : Nat),
      nImgs ≠ 0 → save_interval ≠ 0 →
      (∀ e, Event.saveImages e ∈ (DCGAN.train nImgs epochs half_batch save_interval).1
            ↔ e < epochs ∧ e % save_interval = 0) ∧
      (∀ e1 e2 : Nat, DCGAN.saveName e1 = DCGAN.saveName e2 → e1 = e2) ∧
      (∀ e, unformat (format04 e).data = e ∧
            DCGAN.saveName e = "dcgan_" ++ format04 e ++ ".png") ∧
      (∀ e, CYCLEGAN.saveName e = "output/dcgan_%04i.png") := by
  intro nImgs epochs half_batch save_interval h1 h2
  have hok : ∀ e ∈ List.range epochs,
      ((DCGAN.epochBody nImgs half_batch save_interval) e).2 = none :=
    fun e _ => DCGAN.epochBody_ok nImgs half_batch save_interval e h1 h2
  refine ⟨fun e => ?_, fun e1 e2 => DCGAN.saveName_inj e1 e2,
    fun e => ⟨unformat_format04 e, rfl⟩, fun e => rfl⟩
  rw [DCGAN.train, runLoop_ok (DCGAN.epochBody nImgs half_batch save_interval)
    (List.range epochs) hok]
  simp only [List.mem_flatMap, List.mem_range]
  constructor
  · rintro ⟨a, ha, hmem⟩
    obtain ⟨rfl, hmod⟩ :=
      (DCGAN.saveImages_mem_epochBody nImgs half_batch save_interval a e h1 h2).mp hmem
    exact ⟨ha, hmod⟩
  · rintro ⟨he, hmod⟩
    exact ⟨e, he,
      (DCGAN.saveImages_mem_epochBody nImgs half_batch save_interval e e h1 h2).mpr
        ⟨rfl, hmod⟩⟩

/-- C8 amended, witnessed with two training images, three epochs, half batch
one and save interval two. -/
theorem C8_amended_save_names_witness :
    (∀ e, Event.saveImages e ∈ (DCGAN.train 2 3 1 2).1 ↔ e < 3 ∧ e % 2 = 0) ∧
    (∀ e1 e2 : Nat, DCGAN.saveName e1 = DCGAN.saveName e2 → e1 = e2) ∧
    (∀ e, unformat (format04 e).data = e ∧
          DCGAN.saveName e = "dcgan_" ++ format04 e ++ ".png") ∧
    (∀ e, CYCLEGAN.saveName e = "output/dcgan_%04i.png") :=
  C8_amended_save_names 2 3 1 2 (by decide) (by decide)

/-- C10: for every number of epochs at least 1, every half batch and every
save interval, with a nonempty training set, CYCLEGAN.train performs the
real-batch discriminator step of the first iteration and then raises
AttributeError on nz while building the latent batch (cyclegan.py line 85),
because CYCLEGAN.__init__ defines nx and ny but never nz; no iteration ever
completes. -/
theorem C10_cyclegan_train_attribute_error :
    ∀ (epochs half_batch save_interval nImgs : Nat),
      1 ≤ epochs → nImgs ≠ 0 →
      CYCLEGAN.train CYCLEGAN.initAttrs nImgs epochs half_batch save_interval
        = ([.discrTrain .discr1 .realImgs (List.replicate half_batch 1)],
           some (.attributeError "nz")) := by
  intro epochs half_batch save_interval nImgs he hn
  obtain ⟨k, rfl⟩ : ∃ k, epochs = k + 1 := ⟨epochs - 1, by omega⟩
  have h := CYCLEGAN.epochBody_nz_error nImgs half_batch save_interval 0 hn
  rw [CYCLEGAN.train, List.range_succ_eq_map]
  simp [runLoop, h]

/-- C10, witnessed with two training images, one epoch, half batch three and
save interval five. -/
theorem C10_cyclegan_train_attribute_error_witness :
    CYCLEGAN.train CYCLEGAN.initAttrs 2 1 3 5
      = ([.discrTrain .discr1 .realImgs (List.replicate 3 1)],
         some (.attributeError "nz")) :=
  C10_cyclegan_train_attribute_error 1 3 5 2 (by decide) (by decide)

end Vega
